import Mathlib

/-!
Verification of usb_inspector.py: a shallow embedding of the USB/serial
inspection tool (USBDevice metadata extraction and display, keyword
filtering, serial port listing, and the serial line-reading loop with its
error handling and cleanup), with theorems settling the specified
properties.
-/

set_option linter.all false

/-! ### Python string primitives used by the source -/

/-- Python str of an optional string: str(None) is the text None. -/
def pyStr : Option String → String
  | none => "None"
  | some s => s

/-- Python str.lower() of one character, as a character list since case
maps can change length: exact on every code point below 256 (basic latin
and latin-1 supplement) and on the images of their upper maps (capital y
with diaeresis 376, Greek capital mu 924); other code points unchanged. -/
def charLowerMap (c : Char) : List Char :=
  if 65 ≤ c.toNat ∧ c.toNat ≤ 90 then [Char.ofNat (c.toNat + 32)]
  else if (192 ≤ c.toNat ∧ c.toNat ≤ 222) ∧ c.toNat ≠ 215 then [Char.ofNat (c.toNat + 32)]
  else if c.toNat = 376 then [Char.ofNat 255]
  else if c.toNat = 924 then [Char.ofNat 956]
  else [c]

/-- Python str.upper() of one character: exact on every code point below
256 — in particular the sharp s (223) uppercases to the two characters SS
and the micro sign (181) to the Greek capital mu — plus the small Greek mu;
other code points unchanged. -/
def charUpperMap (c : Char) : List Char :=
  if 97 ≤ c.toNat ∧ c.toNat ≤ 122 then [Char.ofNat (c.toNat - 32)]
  else if c.toNat = 223 then [Char.ofNat 83, Char.ofNat 83]
  else if (224 ≤ c.toNat ∧ c.toNat ≤ 254) ∧ c.toNat ≠ 247 then [Char.ofNat (c.toNat - 32)]
  else if c.toNat = 255 then [Char.ofNat 376]
  else if c.toNat = 181 ∨ c.toNat = 956 then [Char.ofNat 924]
  else [c]

/-- Python s.lower(): concatenation of the per-character lower maps. -/
def pyLower (s : String) : String := (s.toList.flatMap charLowerMap).asString

/-- Python s.upper(): concatenation of the per-character upper maps. -/
def pyUpper (s : String) : String := (s.toList.flatMap charUpperMap).asString

/-- Whether a character is whitespace for Python str.strip. -/
def pyIsSpace (c : Char) : Bool :=
  c.toNat == 32 || c.toNat == 9 || c.toNat == 10 || c.toNat == 13 ||
  c.toNat == 11 || c.toNat == 12

/-- Python s.strip(): remove whitespace from both ends of the string. -/
def pyStrip (s : String) : String :=
  (((s.toList.dropWhile pyIsSpace).reverse.dropWhile pyIsSpace).reverse).asString

/-- Whether the first list is an initial segment of the second. -/
def startsWithChars : List Char → List Char → Bool
  | [], _ => true
  | _ :: _, [] => false
  | a :: as, b :: bs => a == b && startsWithChars as bs

/-- Whether the first list occurs contiguously inside the second. -/
def substrChars : List Char → List Char → Bool
  | needle, [] => needle.isEmpty
  | needle, c :: rest => startsWithChars needle (c :: rest) || substrChars needle rest

/-- Python needle in hay for strings: contiguous substring containment. -/
def pyIn (needle hay : String) : Bool := substrChars needle.toList hay.toList

/-- Python hex(n) for a nonnegative n: 0x followed by lowercase hex digits. -/
def pyHex (n : Nat) : String := "0x" ++ (Nat.toDigits 16 n).asString

/-! ### UTF-8 decoding with errors equal ignore (bytes.decode in the source) -/

/-- Whether a byte is a UTF-8 continuation byte. -/
def isCont (b : Nat) : Bool := 128 ≤ b && b ≤ 191

/-- Lower bound of the second byte of a three-byte sequence led by b. -/
def snd3Lo (b : Nat) : Nat := if b == 224 then 160 else 128

/-- Upper bound of the second byte of a three-byte sequence led by b. -/
def snd3Hi (b : Nat) : Nat := if b == 237 then 159 else 191

/-- Lower bound of the second byte of a four-byte sequence led by b. -/
def snd4Lo (b : Nat) : Nat := if b == 240 then 144 else 128

/-- Upper bound of the second byte of a four-byte sequence led by b. -/
def snd4Hi (b : Nat) : Nat := if b == 244 then 143 else 191

/-- Fuelled UTF-8 decoder: invalid bytes are dropped, never a failure,
matching bytes.decode with the ignore error handler. -/
def utf8Go : Nat → List Nat → List Char
  | 0, _ => []
  | _ + 1, [] => []
  | fuel + 1, b :: rest =>
    if b < 128 then Char.ofNat b :: utf8Go fuel rest
    else if 194 ≤ b && b ≤ 223 then
      match rest with
      | b2 :: rest2 =>
        if isCont b2 then
          Char.ofNat ((b - 192) * 64 + (b2 - 128)) :: utf8Go fuel rest2
        else utf8Go fuel rest
      | [] => []
    else if 224 ≤ b && b ≤ 239 then
      match rest with
      | b2 :: b3 :: rest3 =>
        if (snd3Lo b ≤ b2 && b2 ≤ snd3Hi b) && isCont b3 then
          Char.ofNat ((b - 224) * 4096 + (b2 - 128) * 64 + (b3 - 128)) :: utf8Go fuel rest3
        else utf8Go fuel rest
      | _ => utf8Go fuel rest
    else if 240 ≤ b && b ≤ 244 then
      match rest with
      | b2 :: b3 :: b4 :: rest4 =>
        if ((snd4Lo b ≤ b2 && b2 ≤ snd4Hi b) && isCont b3) && isCont b4 then
          Char.ofNat ((b - 240) * 262144 + (b2 - 128) * 4096 + (b3 - 128) * 64 + (b4 - 128))
            :: utf8Go fuel rest4
        else utf8Go fuel rest
      | _ => utf8Go fuel rest
    else utf8Go fuel rest

/-- data.decode(errors equal ignore) on a byte list, as in the read loop. -/
def utf8DecodeIgnore (bs : List Nat) : String := (utf8Go bs.length bs).asString

/-! ### USBDevice (class USBDevice in usb_inspector.py) -/

/-- Result of one usb.util.get_string call on the platform: the call either
returns a value (a string, or None when the descriptor index is absent) or
raises an exception. -/
inductive GetStringResult where
  | ok (v : Option String)
  | raises
deriving DecidableEq

/-- Raw platform device as seen by USBDevice.__init__: numeric ids plus the
outcome of each of the three string lookups. -/
structure PlatformDevice where
  idVendor : Nat
  idProduct : Nat
  iManufacturer : GetStringResult
  iProduct : GetStringResult
  iSerialNumber : GetStringResult
deriving DecidableEq

/-- A constructed USBDevice: string fields hold whatever the lookup
produced (possibly None), or the substitute text Unknown when it raised. -/
structure USBDevice where
  vendor_id : Nat
  product_id : Nat
  manufacturer : Option String
  product : Option String
  serial : Option String
deriving DecidableEq

/-- One try/except block of USBDevice.__init__: on an exception the field
becomes Unknown, otherwise the returned value is stored verbatim. -/
def resolveString : GetStringResult → Option String
  | GetStringResult.ok v => v
  | GetStringResult.raises => some "Unknown"

/-- USBDevice.__init__ from usb_inspector.py. -/
def USBDevice.ofPlatform (d : PlatformDevice) : USBDevice :=
  { vendor_id := d.idVendor
    product_id := d.idProduct
    manufacturer := resolveString d.iManufacturer
    product := resolveString d.iProduct
    serial := resolveString d.iSerialNumber }

/-- USBDevice.to_dict: the ordered display record, with hex-string ids. -/
def USBDevice.to_dict (d : USBDevice) : List (String × Option String) :=
  [("VID", some (pyHex d.vendor_id)),
   ("PID", some (pyHex d.product_id)),
   ("Manufacturer", d.manufacturer),
   ("Product", d.product),
   ("Serial", d.serial)]

/-- USBDevice.matches_filter: lowercase the keyword, then test substring
containment against the lowercased str() of every to_dict value. -/
def USBDevice.matches_filter (d : USBDevice) (keyword : String) : Bool :=
  (d.to_dict.map Prod.snd).any fun v => pyIn (pyLower keyword) (pyLower (pyStr v))

/-- The filtering list comprehension in main (devices kept iff they match). -/
def filterDevices (keyword : String) (devices : List USBDevice) : List USBDevice :=
  devices.filter fun d => d.matches_filter keyword

/-! ### Output records of main (table vs JSON branches) -/

/-- The reduced record of the default table branch of main: headers VID,
PID, Product with the corresponding row values. -/
def summaryRecord (d : USBDevice) : List (String × Option String) :=
  [("VID", some (pyHex d.vendor_id)),
   ("PID", some (pyHex d.product_id)),
   ("Product", d.product)]

/-- The record main feeds to tabulate: to_dict under allinfo, otherwise
the reduced three-field summary. -/
def tableRecord (allinfo : Bool) (d : USBDevice) : List (String × Option String) :=
  if allinfo then d.to_dict else summaryRecord d

/-- The record main feeds to json.dumps. -/
def jsonRecord (d : USBDevice) : List (String × Option String) :=
  d.to_dict

/-! ### Serial port listing (list_serial_ports and the serial branch of main) -/

/-- One entry of serial.tools.list_ports.comports(). -/
structure PortInfo where
  device : String
  description : String
deriving DecidableEq

/-- list_serial_ports from usb_inspector.py, with the comports() result as
input: returns the printed lines and the returned port list. -/
def list_serial_ports (comports : List PortInfo) : List String × List PortInfo :=
  if comports.isEmpty then
    (["\n   >> No serial devices detected.\n"], [])
  else
    ("\n   Ports available for inspection:\n" ::
      comports.enum.map (fun ip =>
        "   [" ++ toString (ip.1 + 1) ++ "] " ++ ip.2.device ++ "\t" ++ ip.2.description),
     comports)

/-- Outcome of entering the serial branch of main once: what was printed
and whether the user was prompted for a port selection. -/
structure SerialModeResult where
  printed : List String
  prompted : Bool
deriving DecidableEq

/-- The head of the serial branch of main: list ports, return immediately
without prompting when the list is empty. -/
def serialModeEntry (comports : List PortInfo) : SerialModeResult :=
  let lp := list_serial_ports comports
  if lp.2.isEmpty then { printed := lp.1, prompted := false }
  else { printed := lp.1, prompted := true }

/-! ### read_serial_data: the serial stream loop -/

/-- The exceptions the handlers of read_serial_data distinguish. -/
inductive PyExc where
  | keyboardInterrupt
  | serialException (msg : String)
  | otherException (msg : String)
deriving DecidableEq

/-- One observed behavior of the opened port: each loop iteration either
has a line of bytes waiting or no data; the loop only ends when the
recorded exception is raised; close may itself raise (double close). -/
structure SerialRun where
  openExc : Option PyExc
  iterations : List (Option (List Nat))
  finalExc : PyExc
  closeRaises : Bool
deriving DecidableEq

/-- What one call to read_serial_data did: console output in order, number
of close() invocations on the handle, and any exception escaping the call. -/
structure RunResult where
  printed : List String
  closeCalls : Nat
  propagated : Option PyExc
deriving DecidableEq

/-- The body of the while loop: an iteration with data waiting reads one
line, decodes it tolerantly, strips it, and prints it. -/
def streamLoop : List (Option (List Nat)) → List String
  | [] => []
  | some bs :: rest => pyStrip (utf8DecodeIgnore bs) :: streamLoop rest
  | none :: rest => streamLoop rest

/-- The banner printed after a successful open. -/
def listeningMsg (portName : String) (baudrate : Nat) : String :=
  "\nListening to " ++ portName ++ " at " ++ toString baudrate ++ " baud...\n"

/-- The second banner line after a successful open. -/
def ctrlcMsg : String := "Press Ctrl+C to stop.\n"

/-- The except chain of read_serial_data: every PyExc is caught by one of
the three handlers, which prints a message and swallows the exception. -/
def handleExc : PyExc → String × Option PyExc
  | PyExc.keyboardInterrupt => ("\nStopped by user.", none)
  | PyExc.serialException m => ("   >> Serial error: " ++ m, none)
  | PyExc.otherException m => ("   >> Unexpected error: " ++ m, none)

/-- The message a given exception is reported with. -/
def handlerMsg (e : PyExc) : String := (handleExc e).1

/-- The inner try of the finally block: when the handle exists close() is
invoked once (and may raise, e.g. on a double close); when open failed the
name ser is unbound and the attempt raises before touching any handle. -/
def closeOnce (opened closeRaises : Bool) : Nat × Option PyExc :=
  if opened then (1, if closeRaises then some (PyExc.otherException "close failed") else none)
  else (0, some (PyExc.otherException "name ser is not defined"))

/-- The whole finally block: the bare except swallows whatever the close
attempt raised, so nothing escapes the cleanup boundary. -/
def finallyClose (opened closeRaises : Bool) : Nat × Option PyExc :=
  ((closeOnce opened closeRaises).1, none)

/-- read_serial_data from usb_inspector.py, run against one recorded
behavior of the port: try body, except chain, then the finally block. -/
def read_serial_data (portName : String) (baudrate : Nat) (run : SerialRun) : RunResult :=
  let body : List String × Option PyExc :=
    match run.openExc with
    | some e => ([], some e)
    | none =>
      (listeningMsg portName baudrate :: ctrlcMsg :: streamLoop run.iterations,
       some run.finalExc)
  let handled : List String × Option PyExc :=
    match body.2 with
    | some e => (body.1 ++ [(handleExc e).1], (handleExc e).2)
    | none => body
  let fin := finallyClose run.openExc.isNone run.closeRaises
  { printed := handled.1, closeCalls := fin.1, propagated := handled.2 }

/-! ### Spec-side definition used for claim C3 -/

/-- Spec-side transformation, following the words of the spec: strip only
trailing whitespace from the decoded line (the source strips both ends). -/
def stripTrailingSpec (s : String) : String :=
  ((s.toList.reverse.dropWhile pyIsSpace).reverse).asString

/-! ### Concrete fixtures -/

/-- A platform device whose manufacturer lookup succeeds with None. -/
def devNullField : PlatformDevice :=
  { idVendor := 4660, idProduct := 22136
    iManufacturer := GetStringResult.ok none
    iProduct := GetStringResult.ok (some "Widget")
    iSerialNumber := GetStringResult.raises }

/-- A platform device exercising all three lookup outcomes. -/
def devMixed : PlatformDevice :=
  { idVendor := 1, idProduct := 2
    iManufacturer := GetStringResult.raises
    iProduct := GetStringResult.ok (some "P")
    iSerialNumber := GetStringResult.ok none }

/-- A fully populated constructed descriptor. -/
def dev0 : USBDevice :=
  { vendor_id := 4660, product_id := 1
    manufacturer := some "Acme", product := some "Widget", serial := some "SN1" }

/-- A descriptor whose product contains a double s but no sharp s. -/
def devStrasse : USBDevice :=
  { vendor_id := 1, product_id := 2
    manufacturer := some "Acme", product := some "strasse", serial := some "Unknown" }

/-- A descriptor with vendor id 255, so its VID renders as 0xff. -/
def dev255 : USBDevice :=
  { vendor_id := 255, product_id := 4097
    manufacturer := some "Unknown", product := some "Unknown", serial := some "Unknown" }

/-- A run that opens, sees no data, and is interrupted; close raises,
simulating a double close. -/
def runDoubleClose : SerialRun :=
  { openExc := none, iterations := [none], finalExc := PyExc.keyboardInterrupt
    closeRaises := true }

/-- Scenario B of the spec: lines boot and ready arrive, then the
transport raises a serial error. -/
def scenarioB : SerialRun :=
  { openExc := none
    iterations := [some [98, 111, 111, 116, 10], none, some [114, 101, 97, 100, 121, 10]]
    finalExc := PyExc.serialException "device disconnected"
    closeRaises := false }

/-! ### Helper lemmas -/

theorem charToNat_ofNat_valid (n : Nat) (h : n.isValidChar) : (Char.ofNat n).toNat = n := by
  rw [Char.ofNat, dif_pos h]
  rfl

theorem upper_lower_char_ascii (c : Char) (h : c.toNat < 128) :
    (charUpperMap c).flatMap charLowerMap = charLowerMap c := by
  by_cases hl : 97 ≤ c.toNat ∧ c.toNat ≤ 122
  · have hv : (c.toNat - 32).isValidChar := Or.inl (by omega)
    have ht : (Char.ofNat (c.toNat - 32)).toNat = c.toNat - 32 :=
      charToNat_ofNat_valid _ hv
    have hup : charUpperMap c = [Char.ofNat (c.toNat - 32)] := by
      unfold charUpperMap
      rw [if_pos hl]
    have hlow1 : charLowerMap (Char.ofNat (c.toNat - 32))
        = [Char.ofNat (c.toNat - 32 + 32)] := by
      unfold charLowerMap
      rw [ht, if_pos (by omega)]
    have heq : c.toNat - 32 + 32 = c.toNat := by omega
    have hlow2 : charLowerMap c = [c] := by
      unfold charLowerMap
      rw [if_neg (by omega), if_neg (by omega), if_neg (by omega), if_neg (by omega)]
    rw [hup]
    simp only [List.flatMap_cons, List.flatMap_nil, List.append_nil]
    rw [hlow1, heq, Char.ofNat_toNat, hlow2]
  · have hup : charUpperMap c = [c] := by
      unfold charUpperMap
      rw [if_neg hl, if_neg (by omega), if_neg (by omega), if_neg (by omega),
          if_neg (by omega)]
    rw [hup]
    simp only [List.flatMap_cons, List.flatMap_nil, List.append_nil]

theorem flatMap_upper_lower_ascii (l : List Char) (h : ∀ c ∈ l, c.toNat < 128) :
    (l.flatMap charUpperMap).flatMap charLowerMap = l.flatMap charLowerMap := by
  induction l with
  | nil => rfl
  | cons a as ih =>
    simp only [List.flatMap_cons, List.flatMap_append]
    rw [upper_lower_char_ascii a (h a (List.mem_cons_self a as)),
        ih fun c hc => h c (List.mem_cons_of_mem a hc)]

theorem pyLower_pyUpper_ascii (k : String) (h : ∀ c ∈ k.toList, c.toNat < 128) :
    pyLower (pyUpper k) = pyLower k := by
  unfold pyLower pyUpper
  have h1 : (k.toList.flatMap charUpperMap).asString.toList
      = k.toList.flatMap charUpperMap := rfl
  rw [h1, flatMap_upper_lower_ascii k.toList h]

theorem substrChars_nil_left (h : List Char) : substrChars [] h = true := by
  cases h <;> rfl

theorem pyIn_empty_left (s : String) : pyIn "" s = true := substrChars_nil_left s.toList

theorem matches_filter_empty_keyword (d : USBDevice) : d.matches_filter "" = true := by
  unfold USBDevice.matches_filter
  have h0 : pyLower "" = "" := rfl
  rw [h0]
  simp [USBDevice.to_dict, pyIn_empty_left]

/-! ### Claim theorems -/

/-- C6 counterexample: Python uppercases the sharp s (code point 223) to
the two-letter SS, so for a descriptor whose product contains a double s
the sharp-s keyword does not match while its uppercased form does:
case-insensitivity as universally claimed is false of the program. -/
theorem case_insensitivity_fails_beyond_ascii :
    devStrasse.matches_filter "ß" ≠ devStrasse.matches_filter (pyUpper "ß") := by
  decide

/-- C6 amended: for every descriptor D and every keyword K consisting of
basic latin (ascii) characters, keyword matching is case-insensitive:
matches_filter D K equals matches_filter D K.upper(). -/
theorem matches_filter_case_insensitive_ascii (d : USBDevice) (k : String)
    (h : ∀ c ∈ k.toList, c.toNat < 128) :
    d.matches_filter k = d.matches_filter (pyUpper k) := by
  unfold USBDevice.matches_filter
  rw [pyLower_pyUpper_ascii k h]

/-- Witness for the amended C6 at the ascii keyword acme. -/
theorem matches_filter_case_insensitive_ascii_witness :
    (∀ c ∈ ("acme" : String).toList, c.toNat < 128)
  ∧ dev0.matches_filter "acme" = dev0.matches_filter (pyUpper "acme") :=
  ⟨by decide, matches_filter_case_insensitive_ascii dev0 "acme" (by decide)⟩

/-- C7: filtering with keyword A then keyword B equals one filtering pass
with the conjunction of the two match predicates (filtering is a pure
function of its list argument); with A equal to B this gives idempotence:
refiltering an already-filtered list with the same keyword changes
nothing. -/
theorem filter_composes_and_idempotent :
    (∀ (l : List USBDevice) (a b : String),
      filterDevices b (filterDevices a l)
        = l.filter fun d => d.matches_filter a && d.matches_filter b)
  ∧ ∀ (l : List USBDevice) (k : String),
      filterDevices k (filterDevices k l) = filterDevices k l := by
  constructor
  · intro l a b
    unfold filterDevices
    rw [List.filter_filter]
    exact List.filter_congr fun d _ => Bool.and_comm _ _
  · intro l k
    unfold filterDevices
    rw [List.filter_filter]
    exact List.filter_congr fun d _ => Bool.and_self _

/-- C8: matches_filter D K holds iff the lowercased K occurs as a substring
of the lowercased str() of some display-record value of D; the first two
display values are the 0x-prefixed hex strings of the vendor and product
ids, and concretely a device with vendor id 255 is matched by 0xff and not
by the decimal text 255. -/
theorem matches_filter_substring_hex :
    (∀ (d : USBDevice) (k : String),
      (d.matches_filter k = true ↔
        ∃ v, v ∈ d.to_dict.map Prod.snd ∧ pyIn (pyLower k) (pyLower (pyStr v)) = true)
      ∧ (d.to_dict.map Prod.snd).take 2
          = [some (pyHex d.vendor_id), some (pyHex d.product_id)])
  ∧ dev255.matches_filter "0xff" = true
  ∧ dev255.matches_filter "255" = false := by
  refine ⟨fun d k => ⟨?_, rfl⟩, by decide, by decide⟩
  unfold USBDevice.matches_filter
  exact List.any_eq_true

/-- C9: with zero attached ports, list_serial_ports prints the no-devices
report and returns the empty list, and the serial branch of main returns
without prompting the user for a selection. -/
theorem empty_ports_no_prompt :
    list_serial_ports [] = (["\n   >> No serial devices detected.\n"], [])
  ∧ serialModeEntry []
      = { printed := ["\n   >> No serial devices detected.\n"], prompted := false } := by
  constructor <;> rfl

/-- C10: the empty keyword matches every descriptor, so filtering with the
empty keyword leaves any device list unchanged. -/
theorem empty_keyword_matches_everything :
    (∀ d : USBDevice, d.matches_filter "" = true)
  ∧ ∀ l : List USBDevice, filterDevices "" l = l := by
  refine ⟨matches_filter_empty_keyword, fun l => ?_⟩
  unfold filterDevices
  exact List.filter_eq_self.mpr fun d _ => matches_filter_empty_keyword d

/-- C1: for every termination cause of the stream loop (interrupt, serial
failure, or any other exception) the port handle's close is invoked
exactly once on loop exit and the cause's report is still printed; and no
close attempt — on a handle whose close raises (double close) or on a
never-opened handle — lets an error propagate past the cleanup boundary. -/
theorem close_invoked_exactly_once (portName : String) (baudrate : Nat) (run : SerialRun)
    (h : run.openExc = none) :
    (read_serial_data portName baudrate run).closeCalls = 1
  ∧ handlerMsg run.finalExc ∈ (read_serial_data portName baudrate run).printed
  ∧ ∀ run2 : SerialRun, (read_serial_data portName baudrate run2).propagated = none := by
  refine ⟨?_, ?_, ?_⟩
  · simp [read_serial_data, finallyClose, closeOnce, h]
  · simp [read_serial_data, handlerMsg, h]
  · intro run2
    obtain ⟨o, its, fe, cr⟩ := run2
    cases o with
    | none => cases fe <;> simp [read_serial_data, handleExc]
    | some e => cases e <;> simp [read_serial_data, handleExc]

/-- Witness for C1 at a concrete run whose close raises (double close):
close is still counted once, the stop report is printed, and nothing
propagates out of read_serial_data. -/
theorem close_invoked_exactly_once_witness :
    (read_serial_data "COM3" 115200 runDoubleClose).closeCalls = 1
  ∧ handlerMsg runDoubleClose.finalExc
      ∈ (read_serial_data "COM3" 115200 runDoubleClose).printed
  ∧ ∀ run2 : SerialRun, (read_serial_data "COM3" 115200 run2).propagated = none :=
  close_invoked_exactly_once "COM3" 115200 runDoubleClose rfl

/-- C2: every failure inside read_serial_data — at open or during the read
loop — is caught and reported with its handler's message, and no exception
propagates out of read_serial_data to the interactive shell loop. -/
theorem stream_failures_never_propagate (portName : String) (baudrate : Nat)
    (run : SerialRun) :
    (read_serial_data portName baudrate run).propagated = none
  ∧ handlerMsg (run.openExc.getD run.finalExc)
      ∈ (read_serial_data portName baudrate run).printed := by
  obtain ⟨o, its, fe, cr⟩ := run
  cases o with
  | none => cases fe <;> simp [read_serial_data, handlerMsg, handleExc]
  | some e => cases e <;> simp [read_serial_data, handlerMsg, handleExc]

/-- C3 counterexample: the source strips leading whitespace as well, so the
line made of the bytes of a space followed by boot and a newline is
delivered as boot, not as the trailing-stripped text the claim states. -/
theorem stream_strip_not_trailing_only :
    streamLoop [some [32, 98, 111, 111, 116, 10]]
      ≠ [stripTrailingSpec (utf8DecodeIgnore [32, 98, 111, 111, 116, 10])] := by
  decide

/-- C3 amended: each data-bearing iteration delivers exactly one line,
decoded with undecodable bytes dropped rather than failing and stripped of
leading and trailing whitespace; on the transport of scenario B the lines
boot and ready are printed in order, then the serial error is reported,
while close is invoked once and nothing propagates; a line with an invalid
byte still decodes, with that byte dropped. -/
theorem stream_lines_delivered_stripped :
    (∀ (bs : List Nat) (rest : List (Option (List Nat))),
      streamLoop (some bs :: rest) = pyStrip (utf8DecodeIgnore bs) :: streamLoop rest)
  ∧ (read_serial_data "COM3" 9600 scenarioB).printed
      = [listeningMsg "COM3" 9600, ctrlcMsg, "boot", "ready",
         "   >> Serial error: device disconnected"]
  ∧ (read_serial_data "COM3" 9600 scenarioB).closeCalls = 1
  ∧ (read_serial_data "COM3" 9600 scenarioB).propagated = none
  ∧ pyStrip (utf8DecodeIgnore [98, 255, 111, 111, 116, 10]) = "boot" :=
  ⟨fun bs rest => rfl, by decide, by decide, by decide, by decide⟩

/-- C4 counterexample: a platform device whose manufacturer lookup succeeds
and returns None yields a constructed descriptor whose manufacturer field
is null, contradicting the claim that no string field is ever empty or
null. -/
theorem descriptor_field_null_possible :
    (USBDevice.ofPlatform devNullField).manufacturer = none := rfl

/-- C4 amended: a string field whose platform lookup raises is substituted
with the literal Unknown; a field whose lookup returns a value stores that
value verbatim, so a returned None or empty string is kept as is. -/
theorem unknown_substituted_on_lookup_failure (d : PlatformDevice) :
    (d.iManufacturer = GetStringResult.raises →
      (USBDevice.ofPlatform d).manufacturer = some "Unknown")
  ∧ (d.iProduct = GetStringResult.raises →
      (USBDevice.ofPlatform d).product = some "Unknown")
  ∧ (d.iSerialNumber = GetStringResult.raises →
      (USBDevice.ofPlatform d).serial = some "Unknown")
  ∧ (∀ v, d.iManufacturer = GetStringResult.ok v →
      (USBDevice.ofPlatform d).manufacturer = v)
  ∧ (∀ v, d.iProduct = GetStringResult.ok v →
      (USBDevice.ofPlatform d).product = v)
  ∧ (∀ v, d.iSerialNumber = GetStringResult.ok v →
      (USBDevice.ofPlatform d).serial = v) := by
  refine ⟨fun h => ?_, fun h => ?_, fun h => ?_,
          fun v h => ?_, fun v h => ?_, fun v h => ?_⟩ <;>
    simp [USBDevice.ofPlatform, resolveString, h]

/-- Witness for the amended C4 on a device exercising a raising lookup, a
successful lookup, and a successful lookup returning None. -/
theorem unknown_substituted_on_lookup_failure_witness :
    (USBDevice.ofPlatform devMixed).manufacturer = some "Unknown"
  ∧ (USBDevice.ofPlatform devMixed).product = some "P"
  ∧ (USBDevice.ofPlatform devMixed).serial = none :=
  ⟨(unknown_substituted_on_lookup_failure devMixed).1 rfl,
   (unknown_substituted_on_lookup_failure devMixed).2.2.2.2.1 (some "P") rfl,
   (unknown_substituted_on_lookup_failure devMixed).2.2.2.2.2 none rfl⟩

/-- C5 counterexample: the default table branch of main renders a reduced
record whose key set differs from the JSON record's key set, so table and
JSON output do not agree in fields for every tabular mode. -/
theorem summary_table_keys_differ_from_json :
    (tableRecord false dev0).map Prod.fst ≠ (jsonRecord dev0).map Prod.fst := by
  decide

/-- C5 amended: under allinfo the table consumes exactly the same record as
the JSON output (same keys, same values, only the envelope differs); the
default table is the fixed three-field summary VID, PID, Product, each of
whose entries agrees with the corresponding JSON field. -/
theorem allinfo_table_json_equivalence (d : USBDevice) :
    tableRecord true d = jsonRecord d
  ∧ (tableRecord false d).map Prod.fst = ["VID", "PID", "Product"]
  ∧ ∀ kv ∈ tableRecord false d, kv ∈ jsonRecord d := by
  refine ⟨rfl, rfl, ?_⟩
  intro kv hkv
  simp only [tableRecord, summaryRecord, if_neg Bool.false_ne_true, List.mem_cons,
    List.not_mem_nil, or_false] at hkv
  rcases hkv with rfl | rfl | rfl <;>
    simp [jsonRecord, USBDevice.to_dict]

/-- Witness for the amended C5 at a concrete descriptor. -/
theorem allinfo_table_json_equivalence_witness :
    tableRecord true dev0 = jsonRecord dev0
  ∧ ("Product", some "Widget") ∈ jsonRecord dev0 :=
  ⟨(allinfo_table_json_equivalence dev0).1,
   (allinfo_table_json_equivalence dev0).2.2 ("Product", some "Widget") (by decide)⟩
